import Mathlib

/-
Verification of the Flowise session-secret provisioning and session-migration
core, a shallow embedding of:
  packages/server/src/utils/sessionSecretManager.ts
  packages/server/src/enterprise/middleware/passport/sessionMigration.ts

External effects (environment variables, the AWS Secrets Manager client, the
file system, the CSPRNG, express-session regeneration) are modelled as fields
of an explicit `World`; each operation returns its result together with the
list of backend effects it performed, in order.
-/

/-- A JavaScript error value: only the `name` and `message` fields are ever
inspected by the embedded code (`error.name === "ResourceNotFoundException"`). -/
structure JsError where
  name : String
  message : String
deriving Repr, DecidableEq

/-- One observable backend effect performed during secret resolution. -/
inductive Effect where
  | envRead (varName : String)
  | remoteFetch (secretId : String)
  | remoteCreate (secretId : String)
  | fileRead (path : String)
  | mkdirp (dir : String)
  | fileWrite (path : String) (content : String)
  | generate
deriving Repr, DecidableEq

/-- Outcome of `secretsManagerClient.send(new GetSecretValueCommand ...)`:
either a response whose optional `SecretString` field may be absent, or a
thrown error. -/
inductive FetchOutcome where
  | ok (secretString : Option String)
  | error (e : JsError)
deriving Repr, DecidableEq

/-- The ambient state `sessionSecretManager.ts` interacts with.
`secretsManagerConfigured` models whether `getSecretsManagerClient()` (from
flowise-components, outside this core) returned a client or `null`;
`generatedSecret` models the value `crypto.randomBytes(32).toString('hex')`
would produce (a 64-character hex string in reality);
`readFile` models `fs.promises.readFile` by path;
`mkdirResult` / `writeFileResult` / `createSecretResult` are `none` on
success and `some e` when the corresponding call throws `e`. -/
structure World where
  expressSessionSecret : Option String
  secretkeyAwsSessionSecret : Option String
  secretkeyPath : Option String
  userHome : String
  secretsManagerConfigured : Bool
  fetchSecret : String → FetchOutcome
  createSecretResult : Option JsError
  readFile : String → Except JsError String
  mkdirResult : Option JsError
  writeFileResult : Option JsError
  generatedSecret : String

/-- Source constant `DEFAULT_SECRETKEY_AWS_SESSION_SECRET`. -/
def DEFAULT_SECRETKEY_AWS_SESSION_SECRET : String := "FlowiseSessionSecret"

/-- Source constant `SECRET_MIN_SECURE_BYTES`. -/
def SECRET_MIN_SECURE_BYTES : Nat := 32

/-- `generateSessionSecret`: `crypto.randomBytes(32).toString('hex')`.
The CSPRNG draw is modelled by the world parameter `generatedSecret`. -/
def generateSessionSecret (w : World) : String :=
  w.generatedSecret

/-- `getSessionSecretPath`: `path.join(process.env.SECRETKEY_PATH, 'session.secret')`
when `SECRETKEY_PATH` is set, else `path.join(getUserHome(), '.flowise', 'session.secret')`. -/
def getSessionSecretPath (w : World) : String :=
  match w.secretkeyPath with
  | some p => p ++ "/session.secret"
  | none => w.userHome ++ "/.flowise/session.secret"

/-- `path.dirname`: drop the final path component. -/
def dirname (p : String) : String :=
  String.intercalate "/" ((p.splitOn "/").dropLast)

/-- `isSessionSecretSecure`: `secret.length >= SECRET_MIN_SECURE_BYTES`. -/
def isSessionSecretSecure (secret : String) : Bool :=
  decide (SECRET_MIN_SECURE_BYTES ≤ secret.length)

/-- The error thrown by `getSessionSecret` when `EXPRESS_SESSION_SECRET` is
unset and no Secrets Manager client is configured. -/
def sessionSecretConfigError : JsError :=
  { name := "Error"
    message := "The EXPRESS_SESSION_SECRET variable is not set, and AWS Secrets Manager is not configured. Flowise can generate and manage a secure session secret, but requires AWS Secrets Manager to do so." }

/-- The trace of the initial `process.env.EXPRESS_SESSION_SECRET` check. -/
def envTrace : List Effect :=
  [Effect.envRead "EXPRESS_SESSION_SECRET"]

/-- The secret id used against the remote manager:
`process.env.SECRETKEY_AWS_SESSION_SECRET || DEFAULT_SECRETKEY_AWS_SESSION_SECRET`
(JavaScript `||`: an empty-string environment value falls back to the default). -/
def resolvedSecretId (w : World) : String :=
  match w.secretkeyAwsSessionSecret with
  | some sid => if sid != "" then sid else DEFAULT_SECRETKEY_AWS_SESSION_SECRET
  | none => DEFAULT_SECRETKEY_AWS_SESSION_SECRET

/-- The trailing file-system block of `getSessionSecret`: try
`fs.promises.readFile(getSessionSecretPath(), 'utf8')`; on any read error,
generate a new secret, `mkdir` the containing directory recursively, write the
file, and return the new secret. `t` is the effect trace accumulated before
this block. -/
def readFromFileSystem (w : World) (t : List Effect) : Except JsError String × List Effect :=
  let defaultLocation := getSessionSecretPath w
  match w.readFile defaultLocation with
  | Except.ok s => (Except.ok s, t ++ [Effect.fileRead defaultLocation])
  | Except.error _ =>
    let newSecret := generateSessionSecret w
    let dir := dirname defaultLocation
    match w.mkdirResult with
    | some e =>
      (Except.error e, t ++ [Effect.fileRead defaultLocation, Effect.generate, Effect.mkdirp dir])
    | none =>
      match w.writeFileResult with
      | some e =>
        (Except.error e,
          t ++ [Effect.fileRead defaultLocation, Effect.generate, Effect.mkdirp dir,
                Effect.fileWrite defaultLocation newSecret])
      | none =>
        (Except.ok newSecret,
          t ++ [Effect.fileRead defaultLocation, Effect.generate, Effect.mkdirp dir,
                Effect.fileWrite defaultLocation newSecret])

/-- `getSessionSecret` after the environment check did not return:
if no Secrets Manager client is configured, throw `sessionSecretConfigError`;
otherwise fetch the named secret: a response with a truthy `SecretString`
returns it; `ResourceNotFoundException` generates and creates the secret
remotely; any other thrown error propagates; a successful response with no
(or an empty) `SecretString` falls out of the `try` block into the
file-system code. -/
def getSessionSecretNoEnv (w : World) : Except JsError String × List Effect :=
  if w.secretsManagerConfigured = false then
    (Except.error sessionSecretConfigError, envTrace)
  else
    let secretId := resolvedSecretId w
    match w.fetchSecret secretId with
    | FetchOutcome.ok (some s) =>
      if s != "" then (Except.ok s, envTrace ++ [Effect.remoteFetch secretId])
      else readFromFileSystem w (envTrace ++ [Effect.remoteFetch secretId])
    | FetchOutcome.ok none =>
      readFromFileSystem w (envTrace ++ [Effect.remoteFetch secretId])
    | FetchOutcome.error e =>
      if e.name == "ResourceNotFoundException" then
        match w.createSecretResult with
        | some ce =>
          (Except.error ce,
            envTrace ++ [Effect.remoteFetch secretId, Effect.generate, Effect.remoteCreate secretId])
        | none =>
          (Except.ok (generateSessionSecret w),
            envTrace ++ [Effect.remoteFetch secretId, Effect.generate, Effect.remoteCreate secretId])
      else (Except.error e, envTrace ++ [Effect.remoteFetch secretId])

/-- `getSessionSecret`: first the `process.env.EXPRESS_SESSION_SECRET`
truthiness check (a set but empty variable is falsy and falls through),
then the Secrets Manager / file-system logic. -/
def getSessionSecret (w : World) : Except JsError String × List Effect :=
  match w.expressSessionSecret with
  | some s => if s != "" then (Except.ok s, envTrace) else getSessionSecretNoEnv w
  | none => getSessionSecretNoEnv w

/-- `getPreviousSessionSecret`: read `getSessionSecretPath() + '.previous'`;
return the contents on success and `null` on any read error. -/
def getPreviousSessionSecret (w : World) : Option String × List Effect :=
  let previousSecretPath := getSessionSecretPath w ++ ".previous"
  match w.readFile previousSecretPath with
  | Except.ok s => (some s, [Effect.fileRead previousSecretPath])
  | Except.error _ => (none, [Effect.fileRead previousSecretPath])

/-- `storePreviousSessionSecret`: write the given secret to the sibling
`.previous` location. -/
def storePreviousSessionSecret (w : World) (currentSecret : String) :
    Option JsError × List Effect :=
  let previousSecretPath := getSessionSecretPath w ++ ".previous"
  (w.writeFileResult, [Effect.fileWrite previousSecretPath currentSecret])

/-
Embedding of sessionMigration.ts. The express request carries an optional
session record and a session id string (express-session assigns the id; the
middleware itself guards against a falsy id). The `passport.user` value is an
opaque object (truthy in JavaScript whenever present), so session state is
modelled structurally.
-/

/-- The authenticated principal stored by passport: an opaque object,
truthy whenever present. -/
structure UserPrincipal where
  id : String
deriving Repr, DecidableEq

/-- The nested `passport` object of a session record. -/
structure PassportData where
  user : Option UserPrincipal
deriving Repr, DecidableEq

/-- A session record as inspected by the middleware: only the optional
`passport.user` field is read (other keys are irrelevant to control flow). -/
structure SessionData where
  passport : Option PassportData
deriving Repr, DecidableEq

/-- An express request as seen by the middleware: `req.session` and
`req.sessionID`. -/
structure Req where
  session : Option SessionData
  sessionID : String
deriving Repr, DecidableEq

/-- Environment of one middleware invocation: the secret-resolution world
plus the behaviour of `req.session.regenerate` (an error passed to its
callback, or success yielding a store-issued fresh session id). -/
structure MwWorld where
  world : World
  regenerateError : Option JsError
  freshSessionID : String

/-- How the middleware hands control on: `next()` or `next(err)`. -/
inductive MwOutcome where
  | next
  | nextError (e : JsError)
deriving Repr, DecidableEq

/-- Observable result of one middleware invocation. `regenerateCalled` records
that `req.session.regenerate` was invoked; `regenerated` that it succeeded;
`finalSessionID` is the session id after the call; `trace` the backend
effects performed during the call. -/
structure MwResult where
  outcome : MwOutcome
  finalSessionID : String
  regenerateCalled : Bool
  regenerated : Bool
  trace : List Effect
deriving Repr, DecidableEq

/-- JavaScript truthiness of an optional string: truthy exactly when present
and non-empty (`undefined`, `null` and `""` are all falsy). -/
def jsTruthyString : Option String → Bool
  | some s => s != ""
  | none => false

/-- `sessionMigrationMiddleware`: skip when there is no session; resolve the
current secret (`await getSessionSecret()`, a thrown error is caught, logged
and followed by `next()`); resolve the previous secret; skip (logged) when
the previous secret is falsy (`!previousSecret`: absent or the empty string)
or the current secret is not secure; skip when `req.sessionID` is falsy;
when the session lacks `passport.user`, call `req.session.regenerate` — on
error the middleware logs and calls `next(err)`, on success it logs and
calls `next()`; otherwise `next()`. -/
def sessionMigrationMiddleware (mw : MwWorld) (req : Req) : MwResult :=
  match req.session with
  | none => { outcome := MwOutcome.next, finalSessionID := req.sessionID,
              regenerateCalled := false, regenerated := false, trace := [] }
  | some sessionData =>
    match getSessionSecret mw.world with
    | (Except.error _, t1) =>
      { outcome := MwOutcome.next, finalSessionID := req.sessionID,
        regenerateCalled := false, regenerated := false, trace := t1 }
    | (Except.ok currentSecret, t1) =>
      let prev := getPreviousSessionSecret mw.world
      let tr := t1 ++ prev.2
      if !(jsTruthyString prev.1) || !(isSessionSecretSecure currentSecret) then
        { outcome := MwOutcome.next, finalSessionID := req.sessionID,
          regenerateCalled := false, regenerated := false, trace := tr }
      else if req.sessionID == "" then
        { outcome := MwOutcome.next, finalSessionID := req.sessionID,
          regenerateCalled := false, regenerated := false, trace := tr }
      else if (sessionData.passport.bind PassportData.user).isNone then
        match mw.regenerateError with
        | some e =>
          { outcome := MwOutcome.nextError e, finalSessionID := req.sessionID,
            regenerateCalled := true, regenerated := false, trace := tr }
        | none =>
          { outcome := MwOutcome.next, finalSessionID := mw.freshSessionID,
            regenerateCalled := true, regenerated := true, trace := tr }
      else
        { outcome := MwOutcome.next, finalSessionID := req.sessionID,
          regenerateCalled := false, regenerated := false, trace := tr }

/-- Result of the wrapped store's `get` callback: an error, a truthy session,
or no session (`null`/`undefined`). -/
inductive StoreGetResult (σ : Type) where
  | err (e : JsError)
  | found (s : σ)
  | notFound
deriving Repr, DecidableEq

/-- Behaviour of the wrapped (underlying) session store; `set`/`destroy`/
`touch` report `none` for success or `some e` for the error handed to their
callbacks. -/
structure StoreModel (σ : Type) where
  get : String → StoreGetResult σ
  set : String → σ → Option JsError
  destroy : String → Option JsError
  touch : String → σ → Option JsError

/-- `SessionMigrationStore`: the wrapped store plus the secrets captured once
at construction. -/
structure SessionMigrationStore (σ : Type) where
  store : StoreModel σ
  currentSecret : String
  previousSecret : Option String

/-- What `SessionMigrationStore.get` hands to its callback. -/
inductive CallbackResult (σ : Type) where
  | err (e : JsError)
  | session (s : Option σ)
deriving Repr, DecidableEq

/-- Observable result of `SessionMigrationStore.get`: the callback value,
whether the migration branch was entered (the logged attempt), and the
backend secret-resolution effects performed (none occur in the source). -/
structure GetOutcome (σ : Type) where
  result : CallbackResult σ
  migrationAttempted : Bool
  trace : List Effect
deriving Repr, DecidableEq

/-- `SessionMigrationStore.get`: delegate to the wrapped store; propagate its
error; return a found session unchanged; otherwise, when the stored previous
secret is truthy (`if (this.previousSecret)`: present and non-empty), enter
the migration branch which resolves to `callback(null, null)`; else
`callback(null, null)` directly. -/
def SessionMigrationStore.get {σ : Type} (st : SessionMigrationStore σ)
    (sessionId : String) : GetOutcome σ :=
  match st.store.get sessionId with
  | StoreGetResult.err e =>
    { result := CallbackResult.err e, migrationAttempted := false, trace := [] }
  | StoreGetResult.found s =>
    { result := CallbackResult.session (some s), migrationAttempted := false, trace := [] }
  | StoreGetResult.notFound =>
    if jsTruthyString st.previousSecret then
      { result := CallbackResult.session none, migrationAttempted := true, trace := [] }
    else
      { result := CallbackResult.session none, migrationAttempted := false, trace := [] }

/-- `SessionMigrationStore.set`: pure delegation to the wrapped store. -/
def SessionMigrationStore.set {σ : Type} (st : SessionMigrationStore σ)
    (sessionId : String) (s : σ) : Option JsError × List Effect :=
  (st.store.set sessionId s, [])

/-- `SessionMigrationStore.destroy`: pure delegation to the wrapped store. -/
def SessionMigrationStore.destroy {σ : Type} (st : SessionMigrationStore σ)
    (sessionId : String) : Option JsError × List Effect :=
  (st.store.destroy sessionId, [])

/-- `SessionMigrationStore.touch`: pure delegation to the wrapped store. -/
def SessionMigrationStore.touch {σ : Type} (st : SessionMigrationStore σ)
    (sessionId : String) (s : σ) : Option JsError × List Effect :=
  (st.store.touch sessionId s, [])

/-- `createSessionMigrationStore`: resolve the current and previous secrets
once and construct the wrapper around the original store. -/
def createSessionMigrationStore {σ : Type} (w : World) (originalStore : StoreModel σ) :
    Except JsError (SessionMigrationStore σ) × List Effect :=
  match getSessionSecret w with
  | (Except.error e, t1) => (Except.error e, t1)
  | (Except.ok currentSecret, t1) =>
    let prev := getPreviousSessionSecret w
    (Except.ok { store := originalStore, currentSecret := currentSecret,
                 previousSecret := prev.1 }, t1 ++ prev.2)

/-
Concrete worlds used to evaluate the definitions on explicit inputs.
-/

/-- The read error thrown for a missing file. -/
def enoentError : JsError :=
  { name := "Error", message := "ENOENT: no such file or directory" }

/-- A file system with no files at all. -/
def readAlwaysFails : String → Except JsError String :=
  fun _ => Except.error enoentError

/-- A remote client that fails every call with a non-not-found error. -/
def fetchAlwaysBroken : String → FetchOutcome :=
  fun _ => FetchOutcome.error { name := "InternalServiceError", message := "unreachable" }

/-- A 64-character lowercase hex string, the shape `generateSessionSecret`
produces. -/
def hex64 : String :=
  "9f2c07a14be85d630b7a4ec1fd5a886e9f2c07a14be85d630b7a4ec1fd5a886e"

/-- Baseline world: nothing configured, empty file system. -/
def baseWorld : World :=
  { expressSessionSecret := none
    secretkeyAwsSessionSecret := none
    secretkeyPath := none
    userHome := "/home/user"
    secretsManagerConfigured := false
    fetchSecret := fetchAlwaysBroken
    createSecretResult := none
    readFile := readAlwaysFails
    mkdirResult := none
    writeFileResult := none
    generatedSecret := hex64 }

/-- World with a short (insecure) explicit environment secret and a remote
client that would fail loudly if it were contacted. -/
def envShortWorld : World :=
  { baseWorld with
    expressSessionSecret := some "shortvalue"
    secretsManagerConfigured := true }

/-- World with a configured remote client whose fetch reports the named
secret as missing. -/
def remoteNotFoundWorld : World :=
  { baseWorld with
    secretsManagerConfigured := true
    fetchSecret := fun _ =>
      FetchOutcome.error
        { name := "ResourceNotFoundException"
          message := "Secrets Manager cannot find the specified secret." } }

/-- World with a configured remote client whose fetch succeeds but carries no
`SecretString`, and an empty file system. -/
def remoteEmptyWorld : World :=
  { baseWorld with
    secretsManagerConfigured := true
    fetchSecret := fun _ => FetchOutcome.ok none }

/-- World whose file system holds only the sibling `.previous` secret file. -/
def prevFileWorld : World :=
  { baseWorld with
    readFile := fun p =>
      if p == "/home/user/.flowise/session.secret.previous" then
        Except.ok "previous-secret-value"
      else Except.error enoentError }

/-
Claim theorems about sessionSecretManager.ts.
-/

/-- C1: with `EXPRESS_SESSION_SECRET` unset, no Secrets Manager client
configured and no secret file present, `getSessionSecret` does not fall
through to the file-system backend: it throws the configuration error right
after the environment check, performing no generation, no directory creation
and no file write — contradicting the file-system fallback that the
repository documents. -/
theorem getSessionSecret_noBackend_throws :
    getSessionSecret baseWorld =
      (Except.error sessionSecretConfigError,
       [Effect.envRead "EXPRESS_SESSION_SECRET"]) := rfl

/-- C5: when `EXPRESS_SESSION_SECRET` carries a non-empty value, it is
returned verbatim — even when it fails strength validation — and the only
backend effect is the environment read: the remote manager is never contacted
and the file system is never touched. -/
theorem getSessionSecret_env_precedence (w : World) (s : String)
    (hset : w.expressSessionSecret = some s) (hne : s ≠ "") :
    getSessionSecret w = (Except.ok s, [Effect.envRead "EXPRESS_SESSION_SECRET"]) := by
  simp [getSessionSecret, hset, hne, envTrace]

/-- C5 witness: a concrete world with a 10-character environment secret and a
broken remote client resolves to that secret with only the environment read. -/
theorem getSessionSecret_env_precedence_check :
    getSessionSecret envShortWorld =
      (Except.ok "shortvalue", [Effect.envRead "EXPRESS_SESSION_SECRET"]) :=
  getSessionSecret_env_precedence envShortWorld "shortvalue" rfl (by decide)

/-- C6: with no environment secret and a configured client, a fetch failing
with `ResourceNotFoundException` leads to generating a new secret, creating it
remotely under the resolved name and returning the new value; a fetch failing
with any other error propagates that error with no file-system fallback. -/
theorem getSessionSecret_remote_notFound_spec (w : World) (e : JsError)
    (henv : w.expressSessionSecret = none)
    (hcfg : w.secretsManagerConfigured = true)
    (hfetch : w.fetchSecret (resolvedSecretId w) = FetchOutcome.error e) :
    (e.name = "ResourceNotFoundException" → w.createSecretResult = none →
      getSessionSecret w =
        (Except.ok w.generatedSecret,
         [Effect.envRead "EXPRESS_SESSION_SECRET", Effect.remoteFetch (resolvedSecretId w),
          Effect.generate, Effect.remoteCreate (resolvedSecretId w)])) ∧
    (e.name ≠ "ResourceNotFoundException" →
      getSessionSecret w =
        (Except.error e,
         [Effect.envRead "EXPRESS_SESSION_SECRET", Effect.remoteFetch (resolvedSecretId w)])) := by
  constructor
  · intro hn hc
    simp [getSessionSecret, getSessionSecretNoEnv, henv, hcfg, hfetch, hn, hc,
      envTrace, generateSessionSecret]
  · intro hn
    simp [getSessionSecret, getSessionSecretNoEnv, henv, hcfg, hfetch, hn, envTrace]

/-- C6 witness: in a concrete not-found world the call generates, creates the
secret under the default name and returns the generated value. -/
theorem getSessionSecret_remote_notFound_check :
    getSessionSecret remoteNotFoundWorld =
      (Except.ok remoteNotFoundWorld.generatedSecret,
       [Effect.envRead "EXPRESS_SESSION_SECRET",
        Effect.remoteFetch (resolvedSecretId remoteNotFoundWorld),
        Effect.generate, Effect.remoteCreate (resolvedSecretId remoteNotFoundWorld)]) :=
  (getSessionSecret_remote_notFound_spec remoteNotFoundWorld
    { name := "ResourceNotFoundException"
      message := "Secrets Manager cannot find the specified secret." }
    rfl rfl rfl).1 rfl rfl

/-- C7: `isSessionSecretSecure` is true exactly on strings of length at least
32, and accordingly false exactly below 32. -/
theorem isSessionSecretSecure_length_spec (s : String) :
    (isSessionSecretSecure s = true ↔ 32 ≤ s.length) ∧
    (isSessionSecretSecure s = false ↔ s.length < 32) := by
  constructor
  · simp [isSessionSecretSecure, SECRET_MIN_SECURE_BYTES]
  · simp [isSessionSecretSecure, SECRET_MIN_SECURE_BYTES]

/-- C8: `getPreviousSessionSecret` performs exactly one file read, of the
sibling `.previous` path; a successful read returns the stored value and any
read error yields `none`. -/
theorem getPreviousSessionSecret_spec (w : World) :
    (getPreviousSessionSecret w).2 =
      [Effect.fileRead (getSessionSecretPath w ++ ".previous")] ∧
    (∀ v, w.readFile (getSessionSecretPath w ++ ".previous") = Except.ok v →
      (getPreviousSessionSecret w).1 = some v) ∧
    (∀ e, w.readFile (getSessionSecretPath w ++ ".previous") = Except.error e →
      (getPreviousSessionSecret w).1 = none) := by
  cases h : w.readFile (getSessionSecretPath w ++ ".previous") with
  | ok v => refine ⟨?_, ?_, ?_⟩ <;> simp [getPreviousSessionSecret, h]
  | error e => refine ⟨?_, ?_, ?_⟩ <;> simp [getPreviousSessionSecret, h]

/-- C8 witness: with only the `.previous` file present the stored value is
returned, and in the empty file system the result is `none`. -/
theorem getPreviousSessionSecret_check :
    (getPreviousSessionSecret prevFileWorld).1 = some "previous-secret-value" ∧
    (getPreviousSessionSecret baseWorld).1 = none :=
  ⟨(getPreviousSessionSecret_spec prevFileWorld).2.1 "previous-secret-value" rfl,
   (getPreviousSessionSecret_spec baseWorld).2.2 enoentError rfl⟩

/-- C10: with no environment secret and a configured client whose fetch
succeeds but carries no secret string, resolution silently falls through to
the file system: no error is raised by the remote stage and no remote create
occurs; an existing file value is returned, and with no file present a new
secret is generated, the directory ensured, and the file written. -/
theorem getSessionSecret_remote_emptyResponse_spec (w : World)
    (henv : w.expressSessionSecret = none)
    (hcfg : w.secretsManagerConfigured = true)
    (hfetch : w.fetchSecret (resolvedSecretId w) = FetchOutcome.ok none) :
    (∀ v, w.readFile (getSessionSecretPath w) = Except.ok v →
      getSessionSecret w =
        (Except.ok v,
         [Effect.envRead "EXPRESS_SESSION_SECRET", Effect.remoteFetch (resolvedSecretId w),
          Effect.fileRead (getSessionSecretPath w)])) ∧
    (∀ e, w.readFile (getSessionSecretPath w) = Except.error e →
      w.mkdirResult = none → w.writeFileResult = none →
      getSessionSecret w =
        (Except.ok w.generatedSecret,
         [Effect.envRead "EXPRESS_SESSION_SECRET", Effect.remoteFetch (resolvedSecretId w),
          Effect.fileRead (getSessionSecretPath w), Effect.generate,
          Effect.mkdirp (dirname (getSessionSecretPath w)),
          Effect.fileWrite (getSessionSecretPath w) w.generatedSecret])) := by
  constructor
  · intro v hv
    simp [getSessionSecret, getSessionSecretNoEnv, readFromFileSystem, henv, hcfg,
      hfetch, hv, envTrace]
  · intro e he hm hw
    simp [getSessionSecret, getSessionSecretNoEnv, readFromFileSystem, henv, hcfg,
      hfetch, he, hm, hw, envTrace, generateSessionSecret]

/-- C10 witness: in a concrete world with a configured client returning an
empty response and an empty file system, the call returns the generated
secret and writes the default secret file. -/
theorem getSessionSecret_remote_emptyResponse_check :
    getSessionSecret remoteEmptyWorld =
      (Except.ok remoteEmptyWorld.generatedSecret,
       [Effect.envRead "EXPRESS_SESSION_SECRET",
        Effect.remoteFetch (resolvedSecretId remoteEmptyWorld),
        Effect.fileRead (getSessionSecretPath remoteEmptyWorld), Effect.generate,
        Effect.mkdirp (dirname (getSessionSecretPath remoteEmptyWorld)),
        Effect.fileWrite (getSessionSecretPath remoteEmptyWorld)
          remoteEmptyWorld.generatedSecret]) :=
  (getSessionSecret_remote_emptyResponse_spec remoteEmptyWorld rfl rfl rfl).2
    enoentError rfl rfl rfl

/-- C9: the wrapper `get` propagates a wrapped-store error verbatim, returns a
found session unchanged, and resolves every miss to "not found": without a
configured previous secret (absent, or the falsy empty string) the migration
branch is not entered, and with a truthy one the inert migration branch still
hands back "not found" rather than fabricating a session. -/
theorem sessionMigrationStore_get_spec {σ : Type} (st : SessionMigrationStore σ)
    (sessionId : String) :
    (∀ e, st.store.get sessionId = StoreGetResult.err e →
      (st.get sessionId).result = CallbackResult.err e) ∧
    (∀ s, st.store.get sessionId = StoreGetResult.found s →
      (st.get sessionId).result = CallbackResult.session (some s)) ∧
    (st.store.get sessionId = StoreGetResult.notFound →
      (st.get sessionId).result = CallbackResult.session none ∧
      (st.previousSecret = none → (st.get sessionId).migrationAttempted = false) ∧
      (st.previousSecret = some "" → (st.get sessionId).migrationAttempted = false) ∧
      (jsTruthyString st.previousSecret = true →
        (st.get sessionId).migrationAttempted = true)) := by
  refine ⟨?_, ?_, ?_⟩
  · intro e he
    simp [SessionMigrationStore.get, he]
  · intro s hs
    simp [SessionMigrationStore.get, hs]
  · intro hn
    refine ⟨?_, ?_, ?_, ?_⟩
    · simp only [SessionMigrationStore.get, hn]
      split <;> rfl
    · intro hp
      simp [SessionMigrationStore.get, hn, hp, jsTruthyString]
    · intro hp
      simp [SessionMigrationStore.get, hn, hp, jsTruthyString]
    · intro ht
      simp [SessionMigrationStore.get, hn, ht]

/-- A concrete wrapped store holding exactly one session payload. -/
def oneSessionStore : StoreModel String :=
  { get := fun sid =>
      if sid == "kept-session" then StoreGetResult.found "session-payload"
      else StoreGetResult.notFound
    set := fun _ _ => none
    destroy := fun _ => none
    touch := fun _ _ => none }

/-- The migration wrapper around `oneSessionStore` with no previous secret. -/
def wrappedStoreNoPrev : SessionMigrationStore String :=
  { store := oneSessionStore, currentSecret := hex64, previousSecret := none }

/-- The migration wrapper around `oneSessionStore` with a truthy previous
secret. -/
def wrappedStoreWithPrev : SessionMigrationStore String :=
  { store := oneSessionStore, currentSecret := hex64,
    previousSecret := some "old-previous-secret" }

/-- C9 witness: the wrapper returns the stored payload unchanged for the held
id; with no previous secret a miss is "not found" without entering the
migration branch, and with a truthy previous secret the entered branch still
yields "not found". -/
theorem sessionMigrationStore_get_check :
    (wrappedStoreNoPrev.get "kept-session").result =
      CallbackResult.session (some "session-payload") ∧
    (wrappedStoreNoPrev.get "missing-session").result = CallbackResult.session none ∧
    (wrappedStoreNoPrev.get "missing-session").migrationAttempted = false ∧
    (wrappedStoreWithPrev.get "missing-session").result = CallbackResult.session none ∧
    (wrappedStoreWithPrev.get "missing-session").migrationAttempted = true :=
  ⟨(sessionMigrationStore_get_spec wrappedStoreNoPrev "kept-session").2.1
      "session-payload" rfl,
   ((sessionMigrationStore_get_spec wrappedStoreNoPrev "missing-session").2.2 rfl).1,
   ((sessionMigrationStore_get_spec wrappedStoreNoPrev "missing-session").2.2 rfl).2.1 rfl,
   ((sessionMigrationStore_get_spec wrappedStoreWithPrev "missing-session").2.2 rfl).1,
   ((sessionMigrationStore_get_spec wrappedStoreWithPrev "missing-session").2.2 rfl).2.2.2 rfl⟩

/-
Helper lemmas about effect traces.
-/

/-- Whatever the file-system block appends, the accumulated prefix trace
survives: membership in the prefix is preserved. -/
lemma mem_readFromFileSystem_trace (w : World) (t : List Effect) (a : Effect)
    (ha : a ∈ t) : a ∈ (readFromFileSystem w t).2 := by
  cases hr : w.readFile (getSessionSecretPath w) with
  | ok v => simp [readFromFileSystem, hr, ha]
  | error e =>
    cases hm : w.mkdirResult with
    | some e2 => simp [readFromFileSystem, hr, hm, ha]
    | none =>
      cases hw : w.writeFileResult with
      | some e3 => simp [readFromFileSystem, hr, hm, hw, ha]
      | none => simp [readFromFileSystem, hr, hm, hw, ha]

/-- Every branch of `getSessionSecretNoEnv` keeps the environment read in its
trace. -/
lemma mem_envRead_noEnv (w : World) :
    Effect.envRead "EXPRESS_SESSION_SECRET" ∈ (getSessionSecretNoEnv w).2 := by
  by_cases hc : w.secretsManagerConfigured = false
  · simp [getSessionSecretNoEnv, hc, envTrace]
  · cases hf : w.fetchSecret (resolvedSecretId w) with
    | ok os =>
      cases os with
      | some s =>
        by_cases hs : s = ""
        · subst hs
          simp only [getSessionSecretNoEnv, hc, if_false, hf]
          exact mem_readFromFileSystem_trace _ _ _ (by simp [envTrace])
        · simp [getSessionSecretNoEnv, hc, hf, hs, envTrace]
      | none =>
        simp only [getSessionSecretNoEnv, hc, if_false, hf]
        exact mem_readFromFileSystem_trace _ _ _ (by simp [envTrace])
    | error e =>
      by_cases hn : e.name = "ResourceNotFoundException"
      · cases hcr : w.createSecretResult <;>
          simp [getSessionSecretNoEnv, hc, hf, hn, hcr, envTrace]
      · simp [getSessionSecretNoEnv, hc, hf, hn, envTrace]

/-- Every branch of `getSessionSecret` keeps the environment read in its
trace: resolution always starts at the environment backend. -/
lemma mem_envRead_getSessionSecret (w : World) :
    Effect.envRead "EXPRESS_SESSION_SECRET" ∈ (getSessionSecret w).2 := by
  cases he : w.expressSessionSecret with
  | some s =>
    by_cases hs : s = ""
    · subst hs
      simp only [getSessionSecret, he]
      exact mem_envRead_noEnv w
    · simp [getSessionSecret, he, hs, envTrace]
  | none =>
    simp only [getSessionSecret, he]
    exact mem_envRead_noEnv w

/-- The previous-secret lookup reads exactly the sibling `.previous` path. -/
lemma getPreviousSessionSecret_trace (w : World) :
    (getPreviousSessionSecret w).2 =
      [Effect.fileRead (getSessionSecretPath w ++ ".previous")] := by
  cases h : w.readFile (getSessionSecretPath w ++ ".previous") <;>
    simp [getPreviousSessionSecret, h]

/-- When there is a session and the active secret resolves, the middleware
trace is the resolution trace followed by the previous-secret lookup trace. -/
lemma sessionMigrationMiddleware_trace_ok (mw : MwWorld) (req : Req)
    (d : SessionData) (cur : String) (t : List Effect)
    (hs : req.session = some d)
    (hg : getSessionSecret mw.world = (Except.ok cur, t)) :
    (sessionMigrationMiddleware mw req).trace =
      t ++ (getPreviousSessionSecret mw.world).2 := by
  simp only [sessionMigrationMiddleware, hs, hg]
  split
  · rfl
  · split
    · rfl
    · split
      · split <;> rfl
      · rfl

/-- When there is a session and secret resolution throws, the error is caught
and the middleware hands on `next()` with nothing regenerated. -/
lemma sessionMigrationMiddleware_of_error (mw : MwWorld) (req : Req)
    (d : SessionData) (e : JsError) (t : List Effect)
    (hs : req.session = some d)
    (hg : getSessionSecret mw.world = (Except.error e, t)) :
    sessionMigrationMiddleware mw req =
      { outcome := MwOutcome.next, finalSessionID := req.sessionID,
        regenerateCalled := false, regenerated := false, trace := t } := by
  simp only [sessionMigrationMiddleware, hs, hg]

/-
Claims C2, C3, C4 about sessionMigration.ts request-path behaviour.
-/

/-- Middleware world whose secret resolution is satisfied by the environment
variable, with an empty file system (so no previous secret). -/
def mwEnvWorld : MwWorld :=
  { world := { baseWorld with expressSessionSecret := some hex64 }
    regenerateError := none
    freshSessionID := "fresh-session-id" }

/-- A request carrying a session record with no `passport.user`. -/
def reqWithSession : Req :=
  { session := some { passport := none }, sessionID := "sid-original" }

/-- C2 counterexample: a single middleware invocation on a request with a
session performs backend secret resolution — an environment read and a file
read of the previous-secret path — rather than consulting only a context
resolved once at construction. -/
theorem sessionMigration_perRequest_resolution :
    (sessionMigrationMiddleware mwEnvWorld reqWithSession).trace =
      [Effect.envRead "EXPRESS_SESSION_SECRET",
       Effect.fileRead "/home/user/.flowise/session.secret.previous"] := rfl

/-- C2 amended: the store wrapper operations perform no backend secret
resolution (they consult only the wrapped store and the captured context),
but the request-path migration check re-resolves secrets on every request
carrying a session: its trace contains the environment read and — whenever
the active secret resolves — the file read of the previous-secret path. -/
theorem sessionMigration_frame_amended {σ : Type} (st : SessionMigrationStore σ)
    (sid : String) (s : σ) (mw : MwWorld) (req : Req) (d : SessionData)
    (hs : req.session = some d) :
    (st.get sid).trace = [] ∧ (st.set sid s).2 = [] ∧
    (st.destroy sid).2 = [] ∧ (st.touch sid s).2 = [] ∧
    Effect.envRead "EXPRESS_SESSION_SECRET" ∈ (sessionMigrationMiddleware mw req).trace ∧
    (∀ cur t, getSessionSecret mw.world = (Except.ok cur, t) →
      Effect.fileRead (getSessionSecretPath mw.world ++ ".previous") ∈
        (sessionMigrationMiddleware mw req).trace) := by
  refine ⟨?_, rfl, rfl, rfl, ?_, ?_⟩
  · cases h : st.store.get sid with
    | err e => simp [SessionMigrationStore.get, h]
    | found s2 => simp [SessionMigrationStore.get, h]
    | notFound =>
      simp only [SessionMigrationStore.get, h]
      split <;> rfl
  · rcases hg : getSessionSecret mw.world with ⟨r, t⟩
    cases r with
    | error e =>
      rw [sessionMigrationMiddleware_of_error mw req d e t hs hg]
      have := mem_envRead_getSessionSecret mw.world
      rw [hg] at this
      exact this
    | ok cur =>
      rw [sessionMigrationMiddleware_trace_ok mw req d cur t hs hg]
      have := mem_envRead_getSessionSecret mw.world
      rw [hg] at this
      exact List.mem_append_left _ this
  · intro cur t hg
    rw [sessionMigrationMiddleware_trace_ok mw req d cur t hs hg,
      getPreviousSessionSecret_trace]
    exact List.mem_append_right _ (by simp)

/-- C2 amended witness: on concrete inputs the wrapper performs no resolution
effects while one middleware call both reads the environment and reads the
previous-secret file. -/
theorem sessionMigration_frame_amended_check :
    (wrappedStoreNoPrev.get "sid-1").trace = [] ∧
    Effect.envRead "EXPRESS_SESSION_SECRET" ∈
      (sessionMigrationMiddleware mwEnvWorld reqWithSession).trace ∧
    Effect.fileRead (getSessionSecretPath mwEnvWorld.world ++ ".previous") ∈
      (sessionMigrationMiddleware mwEnvWorld reqWithSession).trace := by
  have h := sessionMigration_frame_amended wrappedStoreNoPrev "sid-1" "payload"
    mwEnvWorld reqWithSession { passport := none } rfl
  exact ⟨h.1, h.2.2.2.2.1,
    h.2.2.2.2.2 hex64 [Effect.envRead "EXPRESS_SESSION_SECRET"] rfl⟩

/-- When the session exists, the active secret resolved, a previous secret is
present with a secure active secret, the session id is truthy and the record
lacks `passport.user`, the middleware calls `regenerate`: the result depends
only on the regeneration outcome. -/
lemma sessionMigrationMiddleware_regen_branch (mw : MwWorld) (req : Req)
    (d : SessionData) (cur : String) (t : List Effect)
    (hs : req.session = some d)
    (hg : getSessionSecret mw.world = (Except.ok cur, t))
    (hc1 : ((!(jsTruthyString (getPreviousSessionSecret mw.world).1)) ||
            !(isSessionSecretSecure cur)) = false)
    (hc2 : (req.sessionID == "") = false)
    (hc3 : (d.passport.bind PassportData.user).isNone = true) :
    sessionMigrationMiddleware mw req =
      (match mw.regenerateError with
       | some e =>
         { outcome := MwOutcome.nextError e, finalSessionID := req.sessionID,
           regenerateCalled := true, regenerated := false,
           trace := t ++ (getPreviousSessionSecret mw.world).2 }
       | none =>
         { outcome := MwOutcome.next, finalSessionID := mw.freshSessionID,
           regenerateCalled := true, regenerated := true,
           trace := t ++ (getPreviousSessionSecret mw.world).2 }) := by
  simp [sessionMigrationMiddleware, hs, hg, hc1, hc2, hc3]

/-- When the session exists and the secret resolved but any of the three
guards fails, the middleware is a passthrough: `next()`, nothing regenerated,
identifier unchanged. -/
lemma sessionMigrationMiddleware_passthrough (mw : MwWorld) (req : Req)
    (d : SessionData) (cur : String) (t : List Effect)
    (hs : req.session = some d)
    (hg : getSessionSecret mw.world = (Except.ok cur, t))
    (hc : ((!(jsTruthyString (getPreviousSessionSecret mw.world).1)) ||
            !(isSessionSecretSecure cur)) = true ∨
          (req.sessionID == "") = true ∨
          (d.passport.bind PassportData.user).isNone = false) :
    sessionMigrationMiddleware mw req =
      { outcome := MwOutcome.next, finalSessionID := req.sessionID,
        regenerateCalled := false, regenerated := false,
        trace := t ++ (getPreviousSessionSecret mw.world).2 } := by
  rcases hc with hc1 | hc2 | hc3
  · simp [sessionMigrationMiddleware, hs, hg, hc1]
  · by_cases hc1 : ((!(jsTruthyString (getPreviousSessionSecret mw.world).1)) ||
        !(isSessionSecretSecure cur)) = true
    · simp [sessionMigrationMiddleware, hs, hg, hc1]
    · simp [sessionMigrationMiddleware, hs, hg, hc1, hc2]
  · by_cases hc1 : ((!(jsTruthyString (getPreviousSessionSecret mw.world).1)) ||
        !(isSessionSecretSecure cur)) = true
    · simp [sessionMigrationMiddleware, hs, hg, hc1]
    · by_cases hc2 : (req.sessionID == "") = true
      · simp [sessionMigrationMiddleware, hs, hg, hc1, hc2]
      · simp [sessionMigrationMiddleware, hs, hg, hc1, hc2, hc3]

/-- Dichotomy for the middleware: either all migration guards hold and the
result is the regenerate branch, or the call is a passthrough (identifier
unchanged, nothing regenerated) and the guards do not all hold. -/
lemma sessionMigrationMiddleware_main (mw : MwWorld) (req : Req) :
    (∃ d cur t, req.session = some d ∧
      getSessionSecret mw.world = (Except.ok cur, t) ∧
      ((!(jsTruthyString (getPreviousSessionSecret mw.world).1)) ||
        !(isSessionSecretSecure cur)) = false ∧
      (req.sessionID == "") = false ∧
      (d.passport.bind PassportData.user).isNone = true ∧
      sessionMigrationMiddleware mw req =
        (match mw.regenerateError with
         | some e =>
           { outcome := MwOutcome.nextError e, finalSessionID := req.sessionID,
             regenerateCalled := true, regenerated := false,
             trace := t ++ (getPreviousSessionSecret mw.world).2 }
         | none =>
           { outcome := MwOutcome.next, finalSessionID := mw.freshSessionID,
             regenerateCalled := true, regenerated := true,
             trace := t ++ (getPreviousSessionSecret mw.world).2 })) ∨
    ((sessionMigrationMiddleware mw req).outcome = MwOutcome.next ∧
     (sessionMigrationMiddleware mw req).finalSessionID = req.sessionID ∧
     (sessionMigrationMiddleware mw req).regenerateCalled = false ∧
     (sessionMigrationMiddleware mw req).regenerated = false ∧
     ¬(∃ d cur t, req.session = some d ∧
        getSessionSecret mw.world = (Except.ok cur, t) ∧
        ((!(jsTruthyString (getPreviousSessionSecret mw.world).1)) ||
          !(isSessionSecretSecure cur)) = false ∧
        (req.sessionID == "") = false ∧
        (d.passport.bind PassportData.user).isNone = true)) := by
  cases hs : req.session with
  | none =>
    right
    refine ⟨by simp [sessionMigrationMiddleware, hs], by simp [sessionMigrationMiddleware, hs],
      by simp [sessionMigrationMiddleware, hs], by simp [sessionMigrationMiddleware, hs], ?_⟩
    rintro ⟨d, cur, t, hs2, -⟩
    exact Option.noConfusion hs2
  | some d =>
    rcases hg : getSessionSecret mw.world with ⟨r, t⟩
    cases r with
    | error e =>
      right
      have hm := sessionMigrationMiddleware_of_error mw req d e t hs hg
      refine ⟨by simp [hm], by simp [hm], by simp [hm], by simp [hm], ?_⟩
      rintro ⟨d2, cur2, t2, -, hg2, -⟩
      simp at hg2
    | ok cur =>
      by_cases hc1 : ((!(jsTruthyString (getPreviousSessionSecret mw.world).1)) ||
          !(isSessionSecretSecure cur)) = true
      · right
        have hm := sessionMigrationMiddleware_passthrough mw req d cur t hs hg (Or.inl hc1)
        refine ⟨by simp [hm], by simp [hm], by simp [hm], by simp [hm], ?_⟩
        rintro ⟨d2, cur2, t2, hs2, hg2, h1, -⟩
        simp only [Prod.mk.injEq, Except.ok.injEq] at hg2
        obtain ⟨hcc, -⟩ := hg2
        subst hcc
        rw [h1] at hc1
        exact Bool.noConfusion hc1
      · by_cases hc2 : (req.sessionID == "") = true
        · right
          have hm := sessionMigrationMiddleware_passthrough mw req d cur t hs hg
            (Or.inr (Or.inl hc2))
          refine ⟨by simp [hm], by simp [hm], by simp [hm], by simp [hm], ?_⟩
          rintro ⟨d2, cur2, t2, -, -, -, h2, -⟩
          rw [h2] at hc2
          exact Bool.noConfusion hc2
        · by_cases hc3 : (d.passport.bind PassportData.user).isNone = true
          · left
            rw [Bool.not_eq_true] at hc1 hc2
            exact ⟨d, cur, t, rfl, rfl, hc1, hc2, hc3,
              sessionMigrationMiddleware_regen_branch mw req d cur t hs hg hc1 hc2 hc3⟩
          · right
            rw [Bool.not_eq_true] at hc3
            have hm := sessionMigrationMiddleware_passthrough mw req d cur t hs hg
              (Or.inr (Or.inr hc3))
            refine ⟨by simp [hm], by simp [hm], by simp [hm], by simp [hm], ?_⟩
            rintro ⟨d2, cur2, t2, hs2, -, -, -, h3⟩
            obtain rfl : d2 = d := (Option.some.inj hs2).symm
            rw [h3] at hc3
            exact Bool.noConfusion hc3

/-- The error handed to the regenerate callback in the failing scenarios. -/
def regenFailError : JsError :=
  { name := "Error", message := "session store failed to regenerate" }

/-- World where the environment supplies a secure secret and the file system
holds a previous secret, so every migration guard can pass. -/
def prevReadWorld : World :=
  { baseWorld with
    expressSessionSecret := some hex64
    readFile := fun p =>
      if p == "/home/user/.flowise/session.secret.previous" then
        Except.ok "old-previous-secret"
      else Except.error enoentError }

/-- Middleware world over `prevReadWorld` whose session regeneration fails. -/
def mwRegenFailWorld : MwWorld :=
  { world := prevReadWorld
    regenerateError := some regenFailError
    freshSessionID := "fresh-session-id" }

/-- Middleware world over `prevReadWorld` whose session regeneration
succeeds. -/
def mwMigrateWorld : MwWorld :=
  { world := prevReadWorld
    regenerateError := none
    freshSessionID := "fresh-session-id" }

/-- Middleware world whose secret resolution throws (nothing configured). -/
def mwNoSecretWorld : MwWorld :=
  { world := baseWorld
    regenerateError := none
    freshSessionID := "fresh-session-id" }

/-- C3 counterexample: with every migration guard satisfied and a failing
`regenerate`, the middleware does not swallow the failure — it hands the
error to `next(err)`, surfacing it to the caller. -/
theorem sessionMigration_regenError_surfaced :
    (sessionMigrationMiddleware mwRegenFailWorld reqWithSession).outcome =
      MwOutcome.nextError regenFailError := rfl

/-- C3 amended: an error thrown inside the migration step (in particular a
secret-resolution failure) is caught and the request continues un-migrated
via `next()`; with regeneration succeeding the middleware always calls plain
`next()`; but when `regenerate` itself fails, the failure is passed to
`next(err)` and the session is left un-regenerated. -/
theorem sessionMigration_error_handling_amended (mw : MwWorld) (req : Req) :
    (mw.regenerateError = none →
      (sessionMigrationMiddleware mw req).outcome = MwOutcome.next) ∧
    (∀ e t, getSessionSecret mw.world = (Except.error e, t) →
      (sessionMigrationMiddleware mw req).outcome = MwOutcome.next ∧
      (sessionMigrationMiddleware mw req).regenerateCalled = false) ∧
    (∀ e, mw.regenerateError = some e →
      (sessionMigrationMiddleware mw req).regenerateCalled = true →
      (sessionMigrationMiddleware mw req).outcome = MwOutcome.nextError e ∧
      (sessionMigrationMiddleware mw req).regenerated = false) := by
  refine ⟨?_, ?_, ?_⟩
  · intro hreg
    rcases sessionMigrationMiddleware_main mw req with
      ⟨d, cur, t, -, -, -, -, -, hm⟩ | ⟨h1, -⟩
    · rw [hm, hreg]
    · exact h1
  · intro e t hg
    cases hs : req.session with
    | none => constructor <;> simp [sessionMigrationMiddleware, hs]
    | some d =>
      have hm := sessionMigrationMiddleware_of_error mw req d e t hs hg
      constructor <;> simp [hm]
  · intro e hreg hcall
    rcases sessionMigrationMiddleware_main mw req with
      ⟨d, cur, t, -, -, -, -, -, hm⟩ | ⟨-, -, hc, -⟩
    · rw [hm, hreg]
      exact ⟨rfl, rfl⟩
    · rw [hc] at hcall
      exact Bool.noConfusion hcall

/-- C3 amended witness: concretely, a resolution failure and a successful run
both end in `next()`, while a regeneration failure ends in `next(err)`. -/
theorem sessionMigration_error_handling_check :
    (sessionMigrationMiddleware mwMigrateWorld reqWithSession).outcome = MwOutcome.next ∧
    (sessionMigrationMiddleware mwNoSecretWorld reqWithSession).outcome = MwOutcome.next ∧
    (sessionMigrationMiddleware mwNoSecretWorld reqWithSession).regenerateCalled = false ∧
    (sessionMigrationMiddleware mwRegenFailWorld reqWithSession).outcome =
      MwOutcome.nextError regenFailError ∧
    (sessionMigrationMiddleware mwRegenFailWorld reqWithSession).regenerated = false := by
  have h1 := (sessionMigration_error_handling_amended mwMigrateWorld reqWithSession).1 rfl
  have h2 := (sessionMigration_error_handling_amended mwNoSecretWorld reqWithSession).2.1
    sessionSecretConfigError envTrace rfl
  have h3 := (sessionMigration_error_handling_amended mwRegenFailWorld reqWithSession).2.2
    regenFailError rfl (by decide)
  exact ⟨h1, h2.1, h2.2, h3.1, h3.2⟩

/-- Boolean bridge for the middleware skip guard. -/
lemma guard_false_iff (a b : Bool) :
    ((!a || !b) = false) ↔ (a = true ∧ b = true) := by
  cases a <;> cases b <;> simp

/-- C4: for a request with a truthy session identifier and a regeneration
that can succeed, the middleware regenerates — issuing the fresh store
identifier — exactly when a previous secret is configured (the `.previous`
lookup yields a truthy, i.e. non-empty, value — matching the code's
`!previousSecret` falsy check), the active secret resolves and passes
strength validation, and the session record lacks the authenticated
principal; whenever it does not regenerate (in particular when the previous
secret is absent or the active secret is insecure) the session identifier is
left unchanged. -/
theorem sessionMigration_regenerates_iff (mw : MwWorld) (req : Req)
    (hsid : req.sessionID ≠ "") (hreg : mw.regenerateError = none) :
    ((sessionMigrationMiddleware mw req).regenerated = true ↔
      ∃ d cur, req.session = some d ∧
        (getSessionSecret mw.world).1 = Except.ok cur ∧
        jsTruthyString (getPreviousSessionSecret mw.world).1 = true ∧
        isSessionSecretSecure cur = true ∧
        d.passport.bind PassportData.user = none) ∧
    ((sessionMigrationMiddleware mw req).regenerated = true →
      (sessionMigrationMiddleware mw req).finalSessionID = mw.freshSessionID) ∧
    ((sessionMigrationMiddleware mw req).regenerated = false →
      (sessionMigrationMiddleware mw req).finalSessionID = req.sessionID) := by
  have hmain := sessionMigrationMiddleware_main mw req
  refine ⟨⟨?_, ?_⟩, ?_, ?_⟩
  · intro hr
    rcases hmain with ⟨d, cur, t, hs, hg, hc1, -, hc3, -⟩ | ⟨-, -, -, hrg, -⟩
    · exact ⟨d, cur, hs, by rw [hg],
        ((guard_false_iff _ _).mp hc1).1, ((guard_false_iff _ _).mp hc1).2,
        Option.isNone_iff_eq_none.mp hc3⟩
    · rw [hrg] at hr
      exact Bool.noConfusion hr
  · rintro ⟨d, cur, hs, hcur, hprev, hsec, huser⟩
    rcases hmain with ⟨d2, cur2, t2, -, -, -, -, -, hm⟩ | ⟨-, -, -, -, hno⟩
    · rw [hm, hreg]
    · exfalso
      apply hno
      refine ⟨d, cur, (getSessionSecret mw.world).2, hs, ?_, ?_, ?_, ?_⟩
      · exact Prod.ext hcur rfl
      · exact (guard_false_iff _ _).mpr ⟨hprev, hsec⟩
      · exact beq_eq_false_iff_ne.mpr hsid
      · exact Option.isNone_iff_eq_none.mpr huser
  · intro hr
    rcases hmain with ⟨d, cur, t, -, -, -, -, -, hm⟩ | ⟨-, -, -, hrg, -⟩
    · rw [hm, hreg]
    · rw [hrg] at hr
      exact Bool.noConfusion hr
  · intro hr
    rcases hmain with ⟨d, cur, t, -, -, -, -, -, hm⟩ | ⟨-, hfin, -⟩
    · rw [hm, hreg] at hr
      exact Bool.noConfusion hr
    · exact hfin

/-- C4 witness: in the concrete migrating world the record without a
principal is regenerated and carries the fresh identifier afterwards. -/
theorem sessionMigration_regenerates_iff_check :
    (sessionMigrationMiddleware mwMigrateWorld reqWithSession).regenerated = true ∧
    (sessionMigrationMiddleware mwMigrateWorld reqWithSession).finalSessionID =
      "fresh-session-id" := by
  have h := sessionMigration_regenerates_iff mwMigrateWorld reqWithSession (by decide) rfl
  have hr : (sessionMigrationMiddleware mwMigrateWorld reqWithSession).regenerated = true :=
    h.1.mpr ⟨{ passport := none }, hex64, rfl, rfl, rfl, by decide, rfl⟩
  exact ⟨hr, h.2.1 hr⟩
